import Mathlib

/-!
Verification of the graph-arbitrage route executor
(src/programs/graph-arbitrage/src/lib.rs).

The program state observable to the executor is the balance of the
user token account (a u64, modelled as Nat).  The Jupiter adapter
performs a cross-program invocation which may change that balance;
the external program invoked is modelled as an injected function
`Cpi` taking the step, the input amount, the computed minimum output
and the current account balance, and returning the new account
balance, or `none` when the invocation fails (the Rust `invoke(...)?`
propagates such a failure).  Raydium and Orca adapters in the source
perform no invocation and leave the balance untouched.

Machine arithmetic: the Rust code uses u64 throughout; the claims
exercise only small values, and the multiplications are modelled
exactly over Nat.  Rust `saturating_sub` is Nat truncated
subtraction.  The one arithmetic fault the source can actually hit,
division of `profit * 10000` by a zero `start_balance`, is modelled
explicitly as the `panic` outcome.  The `as u16` narrowing in
`calculate_slippage` is modelled with `% 65536`.
-/

namespace GraphArbitrage

/-- DexType from the source: tag selecting the venue adapter. -/
inductive DexType
  | Jupiter
  | Raydium
  | Orca
deriving DecidableEq, Repr

/-- SwapStep from the source.  Pubkeys are opaque; modelled as Nat. -/
structure SwapStep where
  input_mint : Nat
  output_mint : Nat
  dex : DexType
  program_id : Nat
  expected_rate : Nat
  route_data : List Nat
deriving DecidableEq, Repr

/-- SwapResult from the source: per-step outcome reported by an adapter. -/
structure SwapResult where
  success : Bool
  output_amount : Nat
  slippage_bps : Nat
deriving DecidableEq, Repr

/-- ArbitrageError from the source, all six declared variants. -/
inductive ArbitrageError
  | RouteTooShort
  | RouteTooLong
  | InvalidMinProfit
  | SwapFailed
  | InsufficientProfit
  | SlippageExceeded
deriving DecidableEq, Repr

/-- The ArbitrageExecuted event payload emitted on success: the
auditable execution record. -/
structure ArbitrageExecuted where
  user : Nat
  start_amount : Nat
  final_amount : Nat
  profit : Nat
  profit_bps : Nat
  steps : Nat
deriving DecidableEq, Repr

/-- The external program invoked by the Jupiter adapter through CPI:
given the step, the input amount, the minimum output (both encoded in
the instruction data by create_jupiter_swap_data) and the current
token-account balance, it yields the new balance, or `none` when the
invocation fails. -/
def Cpi : Type := SwapStep → Nat → Nat → Nat → Option Nat

/-- calculate_slippage from the source.  `expected.saturating_sub
actual` is Nat subtraction; the `as u16` cast is `% 65536`. -/
def calculate_slippage (expected actual : Nat) : Nat :=
  if expected = 0 then 0
  else (expected - actual) * 10000 / expected % 65536

/-- execute_jupiter_swap from the source: invoke the external program,
then read the new balance and report success iff it reaches
min_output.  Returns the SwapResult together with the account balance
after the invocation; `none` models a failed invoke propagated
by the question-mark operator. -/
def execute_jupiter_swap (cpi : Cpi) (step : SwapStep)
    (input_amount min_output bal : Nat) : Option (SwapResult × Nat) :=
  match cpi step input_amount min_output bal with
  | none => none
  | some newBal =>
    some ({ success := decide (min_output ≤ newBal),
            output_amount := newBal,
            slippage_bps :=
              calculate_slippage (input_amount * step.expected_rate / 1000) newBal },
          newBal)

/-- execute_raydium_swap from the source: always succeeds, output is
input_amount * expected_rate / 1000, slippage 0; no invocation, so
the account balance is unchanged. -/
def execute_raydium_swap (step : SwapStep)
    (input_amount _min_output bal : Nat) : Option (SwapResult × Nat) :=
  some ({ success := true,
          output_amount := input_amount * step.expected_rate / 1000,
          slippage_bps := 0 },
        bal)

/-- execute_orca_swap from the source: identical to the Raydium body. -/
def execute_orca_swap (step : SwapStep)
    (input_amount _min_output bal : Nat) : Option (SwapResult × Nat) :=
  some ({ success := true,
          output_amount := input_amount * step.expected_rate / 1000,
          slippage_bps := 0 },
        bal)

/-- execute_single_swap from the source: compute the minimum
acceptable output from the running amount, the step rate and the
slippage bound, then dispatch on the venue tag. -/
def execute_single_swap (cpi : Cpi) (step : SwapStep)
    (input_amount max_slippage_bps bal : Nat) : Option (SwapResult × Nat) :=
  let min_output :=
    input_amount * step.expected_rate * (10000 - max_slippage_bps) / 10000000
  match step.dex with
  | DexType.Jupiter => execute_jupiter_swap cpi step input_amount min_output bal
  | DexType.Raydium => execute_raydium_swap step input_amount min_output bal
  | DexType.Orca => execute_orca_swap step input_amount min_output bal

/-- Outcome of the step loop of execute_arbitrage_route: either all
steps succeeded (carrying the final running amount and the final
account balance), or a step reported failure, or an invocation
failed; the failing constructors carry the account balance at that
point, before any substrate rollback. -/
inductive StepsOutcome
  | done (current bal : Nat)
  | swapFailed (bal : Nat)
  | cpiErr (bal : Nat)
deriving DecidableEq, Repr

/-- The step loop of execute_arbitrage_route: for each step in order,
run execute_single_swap on the running amount, feed its
output_amount forward, and abort with SwapFailed as soon as a step
reports success = false. -/
def run_route (cpi : Cpi) (max_slippage_bps : Nat) :
    List SwapStep → Nat → Nat → StepsOutcome
  | [], current, bal => StepsOutcome.done current bal
  | step :: rest, current, bal =>
    match execute_single_swap cpi step current max_slippage_bps bal with
    | none => StepsOutcome.cpiErr bal
    | some (res, bal2) =>
      if res.success then run_route cpi max_slippage_bps rest res.output_amount bal2
      else StepsOutcome.swapFailed bal2

/-- Outcome of execute_arbitrage_route: success with the emitted
record, a tagged ArbitrageError, a propagated invocation failure, or
an arithmetic panic (the division of profit by a zero start
balance). -/
inductive ExecOutcome
  | ok (r : ArbitrageExecuted)
  | err (e : ArbitrageError)
  | cpiFailure
  | panic
deriving DecidableEq, Repr

/-- execute_arbitrage_route from the source, returning its outcome
together with the raw account balance when it returns (before any
rollback by the hosting substrate).  `bal` is the token-account
balance on entry; start_balance is read from it once, and the final
balance is read from the account again after the loop. -/
def execute_arbitrage_route_st (user : Nat) (cpi : Cpi) (route : List SwapStep)
    (min_profit_bps max_slippage_bps bal : Nat) : ExecOutcome × Nat :=
  if route.length < 3 then (ExecOutcome.err ArbitrageError.RouteTooShort, bal)
  else if 6 < route.length then (ExecOutcome.err ArbitrageError.RouteTooLong, bal)
  else if min_profit_bps = 0 then (ExecOutcome.err ArbitrageError.InvalidMinProfit, bal)
  else
    -- start_balance is bal, read once from the account before the loop;
    -- final_balance is the account balance read again after the loop.
    match run_route cpi max_slippage_bps route bal bal with
    | StepsOutcome.cpiErr b => (ExecOutcome.cpiFailure, b)
    | StepsOutcome.swapFailed b => (ExecOutcome.err ArbitrageError.SwapFailed, b)
    | StepsOutcome.done _current final_balance =>
      -- profit = final_balance.saturating_sub start_balance; the source then
      -- computes profit * 10000 / start_balance, a division by zero panic
      -- when start_balance = 0 (the source has no guard for it).
      if bal = 0 then (ExecOutcome.panic, final_balance)
      else if (final_balance - bal) * 10000 / bal < min_profit_bps then
        (ExecOutcome.err ArbitrageError.InsufficientProfit, final_balance)
      else
        (ExecOutcome.ok
          { user := user, start_amount := bal,
            final_amount := final_balance, profit := final_balance - bal,
            profit_bps := (final_balance - bal) * 10000 / bal,
            steps := route.length },
         final_balance)

/-- The outcome of execute_arbitrage_route as seen by the caller. -/
def execute_arbitrage_route (user : Nat) (cpi : Cpi) (route : List SwapStep)
    (min_profit_bps max_slippage_bps bal : Nat) : ExecOutcome :=
  (execute_arbitrage_route_st user cpi route min_profit_bps max_slippage_bps bal).1

/-- Modelled from the spec: the hosting transaction substrate (the
atomic transaction the program runs in, outside this repository)
commits the account state only when the program returns success; on
any failure every effect of the transaction is reverted, so the
observable balance is the balance on entry.  Spec sections 5 and 7. -/
def hosted_execute (user : Nat) (cpi : Cpi) (route : List SwapStep)
    (min_profit_bps max_slippage_bps bal : Nat) : ExecOutcome × Nat :=
  match execute_arbitrage_route_st user cpi route min_profit_bps max_slippage_bps bal with
  | (ExecOutcome.ok r, rawBal) => (ExecOutcome.ok r, rawBal)
  | (o, _rawBal) => (o, bal)

/-- A swap step with every opaque field fixed, for concrete runs. -/
def mkStep (d : DexType) (rate : Nat) : SwapStep :=
  { input_mint := 0, output_mint := 1, dex := d, program_id := 2,
    expected_rate := rate, route_data := [] }

/-- An external program that always leaves the given balance. -/
def cpiConst (n : Nat) : Cpi := fun _ _ _ _ => some n

/-- An external program that doubles the account balance. -/
def cpiDouble : Cpi := fun _ _ _ b => some (b * 2)

/-- An external program that adds 1500 to the account balance. -/
def cpiPlus1500 : Cpi := fun _ _ _ b => some (b + 1500)

/-- A three-step route: one Jupiter hop followed by two Raydium hops,
all with expected_rate 1000 (a 1.0 rate). -/
def routeJRR : List SwapStep :=
  [mkStep DexType.Jupiter 1000, mkStep DexType.Raydium 1000, mkStep DexType.Raydium 1000]

/-- A three-step route: two Jupiter hops, then a Raydium hop at rate
500 (a 0.5 rate), whose reported output diverges from the account
balance. -/
def routeJJR : List SwapStep :=
  [mkStep DexType.Jupiter 1000, mkStep DexType.Jupiter 1000, mkStep DexType.Raydium 500]

/-! ## Helper lemmas -/

/-- When every step of a prefix succeeds, running the whole route is
running the remainder from the amount and balance the prefix reached. -/
theorem run_route_append (cpi : Cpi) (slip : Nat) (pre rest : List SwapStep)
    (cur bal c b : Nat)
    (h : run_route cpi slip pre cur bal = StepsOutcome.done c b) :
    run_route cpi slip (pre ++ rest) cur bal = run_route cpi slip rest c b := by
  induction pre generalizing cur bal with
  | nil =>
    simp only [run_route] at h
    injection h with h1 h2
    subst h1; subst h2
    rfl
  | cons s pre ih =>
    simp only [run_route, List.cons_append] at h ⊢
    cases hS : execute_single_swap cpi s cur slip bal with
    | none => rw [hS] at h; exact absurd h (by simp)
    | some p =>
      obtain ⟨res, bal2⟩ := p
      rw [hS] at h
      dsimp only at h ⊢
      by_cases hsucc : res.success = true
      · rw [if_pos hsucc] at h ⊢
        exact ih _ _ h
      · rw [if_neg hsucc] at h
        exact absurd h (by simp)

/-- A route whose every step goes through Raydium or Orca always
completes: those adapters unconditionally report success. -/
theorem run_route_ray_orca (cpi : Cpi) (slip : Nat) (route : List SwapStep)
    (hro : ∀ s ∈ route, s.dex = DexType.Raydium ∨ s.dex = DexType.Orca) :
    ∀ cur bal, ∃ c b, run_route cpi slip route cur bal = StepsOutcome.done c b := by
  induction route with
  | nil => exact fun cur bal => ⟨cur, bal, rfl⟩
  | cons s rest ih =>
    intro cur bal
    have hrest : ∀ x ∈ rest, x.dex = DexType.Raydium ∨ x.dex = DexType.Orca :=
      fun x hx => hro x (List.mem_cons_of_mem _ hx)
    rcases hro s (List.mem_cons_self _ _) with h | h <;>
      simpa [run_route, execute_single_swap, h, execute_raydium_swap,
        execute_orca_swap] using ih hrest _ bal

/-! ## Claim theorems -/

/-- Claim C1: for every execution that passes validation and completes
all swap steps (run_route ends in done, with a nonzero start balance
so that profit_bps is actually computed), if the computed profit_bps
is below min_profit_bps the call fails with InsufficientProfit, and
otherwise it succeeds and returns the execution record. -/
theorem C1_profit_gate (user : Nat) (cpi : Cpi) (route : List SwapStep)
    (minp slip bal current fbal : Nat)
    (h3 : 3 ≤ route.length) (h6 : route.length ≤ 6) (hm : 0 < minp) (hb : bal ≠ 0)
    (hrun : run_route cpi slip route bal bal = StepsOutcome.done current fbal) :
    ((fbal - bal) * 10000 / bal < minp →
       execute_arbitrage_route user cpi route minp slip bal =
         ExecOutcome.err ArbitrageError.InsufficientProfit) ∧
    (minp ≤ (fbal - bal) * 10000 / bal →
       execute_arbitrage_route user cpi route minp slip bal =
         ExecOutcome.ok
           { user := user, start_amount := bal, final_amount := fbal,
             profit := fbal - bal, profit_bps := (fbal - bal) * 10000 / bal,
             steps := route.length }) := by
  have h1 : ¬ route.length < 3 := by omega
  have h2 : ¬ 6 < route.length := by omega
  have h0 : ¬ minp = 0 := by omega
  unfold execute_arbitrage_route execute_arbitrage_route_st
  rw [if_neg h1, if_neg h2, if_neg h0, hrun]
  dsimp only
  rw [if_neg hb]
  constructor
  · intro h
    rw [if_pos h]
  · intro h
    rw [if_neg (by omega)]

/-- Claim C1 witness: three Raydium steps at rate 1000 leave the
balance unchanged, so profit_bps is 0, below the requested 1. -/
theorem C1_witness :
    execute_arbitrage_route 7 (cpiConst 0) (List.replicate 3 (mkStep DexType.Raydium 1000))
      1 0 100000 = ExecOutcome.err ArbitrageError.InsufficientProfit :=
  (C1_profit_gate 7 (cpiConst 0) (List.replicate 3 (mkStep DexType.Raydium 1000))
      1 0 100000 100000 100000 (by decide) (by decide) (by decide) (by decide)
      (by decide)).1 (by decide)

/-- Claim C2 evidence: on a valid route whose steps all succeed, a
start balance of 0 makes the source divide profit * 10000 by zero,
which panics; there is no DivisionByZeroBalance error in the source
and no guard before the division. -/
theorem C2_div_by_zero_panic :
    execute_arbitrage_route 7 (cpiConst 0) (List.replicate 3 (mkStep DexType.Raydium 1000))
      1 0 0 = ExecOutcome.panic := by decide

/-- Claim C3: execute_single_swap computes the per-step minimum output
as current_amount * expected_rate * (10000 - max_slippage_bps) with
the full product formed before the single truncating division by
10000000, and hands exactly that bound to the dispatched adapter (for
Jupiter, success is output_amount reaching it); on the numeric
example, 1000000 * 1050 * 9950 / 10000000 = 1044750 and an adapter
returning exactly 1044750 is accepted with success = true. -/
theorem C3_min_output_formula :
    (∀ (cpi : Cpi) (step : SwapStep) (c slip bal nb : Nat),
        step.dex = DexType.Jupiter →
        cpi step c (c * step.expected_rate * (10000 - slip) / 10000000) bal = some nb →
        execute_single_swap cpi step c slip bal =
          some ({ success := decide (c * step.expected_rate * (10000 - slip) / 10000000 ≤ nb),
                  output_amount := nb,
                  slippage_bps := calculate_slippage (c * step.expected_rate / 1000) nb },
                nb)) ∧
    1000000 * 1050 * (10000 - 50) / 10000000 = 1044750 ∧
    execute_single_swap (cpiConst 1044750) (mkStep DexType.Jupiter 1050) 1000000 50 1000000 =
      some ({ success := true, output_amount := 1044750, slippage_bps := 50 }, 1044750) := by
  refine ⟨?_, by norm_num, by decide⟩
  intro cpi step c slip bal nb hj hc
  simp only [execute_single_swap, hj, execute_jupiter_swap, hc]

/-- Claim C3 witness: the general formula applied at the numeric
example of the spec. -/
theorem C3_witness :
    execute_single_swap (cpiConst 1044750) (mkStep DexType.Jupiter 1050) 1000000 50 1000000 =
      some ({ success := decide (1000000 * (mkStep DexType.Jupiter 1050).expected_rate *
                (10000 - 50) / 10000000 ≤ 1044750),
              output_amount := 1044750,
              slippage_bps := calculate_slippage
                (1000000 * (mkStep DexType.Jupiter 1050).expected_rate / 1000) 1044750 },
            1044750) :=
  C3_min_output_formula.1 (cpiConst 1044750) (mkStep DexType.Jupiter 1050)
    1000000 50 1000000 1044750 rfl rfl

/-- Claim C4: validation is fail-fast; a route shorter than 3 fails
with RouteTooShort and one longer than 6 with RouteTooLong whatever
the balance and adapters (the result does not depend on bal or cpi,
which are universally quantified), and a request with
min_profit_bps = 0 on a well-sized route fails with InvalidMinProfit
before any adapter runs. -/
theorem C4_validation (user : Nat) (cpi : Cpi) (route : List SwapStep)
    (minp slip bal : Nat) :
    (route.length < 3 →
       execute_arbitrage_route user cpi route minp slip bal =
         ExecOutcome.err ArbitrageError.RouteTooShort) ∧
    (6 < route.length →
       execute_arbitrage_route user cpi route minp slip bal =
         ExecOutcome.err ArbitrageError.RouteTooLong) ∧
    (3 ≤ route.length → route.length ≤ 6 → minp = 0 →
       execute_arbitrage_route user cpi route minp slip bal =
         ExecOutcome.err ArbitrageError.InvalidMinProfit) := by
  refine ⟨fun h => ?_, fun h => ?_, fun h3 h6 h0 => ?_⟩
  · unfold execute_arbitrage_route execute_arbitrage_route_st
    rw [if_pos h]
  · unfold execute_arbitrage_route execute_arbitrage_route_st
    rw [if_neg (by omega), if_pos h]
  · unfold execute_arbitrage_route execute_arbitrage_route_st
    rw [if_neg (by omega), if_neg (by omega), if_pos h0]

/-- Claim C4 witness: the three validation failures at concrete
requests. -/
theorem C4_witness :
    execute_arbitrage_route 7 (cpiConst 0) (List.replicate 2 (mkStep DexType.Raydium 1000))
      1 0 5 = ExecOutcome.err ArbitrageError.RouteTooShort ∧
    execute_arbitrage_route 7 (cpiConst 0) (List.replicate 7 (mkStep DexType.Raydium 1000))
      1 0 5 = ExecOutcome.err ArbitrageError.RouteTooLong ∧
    execute_arbitrage_route 7 (cpiConst 0) (List.replicate 3 (mkStep DexType.Raydium 1000))
      0 0 5 = ExecOutcome.err ArbitrageError.InvalidMinProfit :=
  ⟨(C4_validation 7 (cpiConst 0) (List.replicate 2 (mkStep DexType.Raydium 1000)) 1 0 5).1
      (by decide),
   (C4_validation 7 (cpiConst 0) (List.replicate 7 (mkStep DexType.Raydium 1000)) 1 0 5).2.1
      (by decide),
   (C4_validation 7 (cpiConst 0) (List.replicate 3 (mkStep DexType.Raydium 1000)) 0 0 5).2.2
      (by decide) (by decide) rfl⟩

/-- Claim C5: on every successful execution, the start_amount of the
record is the balance read before any step, and the final_amount is
the account balance threaded through the step loop (the balance read
again after the last step), not the running current_amount; on the
concrete mixed route the loop ends with current_amount 200000 while
the re-read balance, and the final_amount reported, is 400000. -/
theorem C5_final_balance_reread :
    (∀ (user : Nat) (cpi : Cpi) (route : List SwapStep) (minp slip bal : Nat)
        (r : ArbitrageExecuted),
        execute_arbitrage_route user cpi route minp slip bal = ExecOutcome.ok r →
        r.start_amount = bal ∧
        ∃ c, run_route cpi slip route bal bal = StepsOutcome.done c r.final_amount) ∧
    run_route cpiDouble 0 routeJJR 100000 100000 = StepsOutcome.done 200000 400000 ∧
    execute_arbitrage_route 7 cpiDouble routeJJR 1 0 100000 =
      ExecOutcome.ok { user := 7, start_amount := 100000, final_amount := 400000,
                       profit := 300000, profit_bps := 30000, steps := 3 } ∧
    (200000 : Nat) ≠ 400000 := by
  refine ⟨?_, by decide, by decide, by decide⟩
  intro user cpi route minp slip bal r h
  unfold execute_arbitrage_route execute_arbitrage_route_st at h
  by_cases h1 : route.length < 3
  · rw [if_pos h1] at h; simp at h
  · rw [if_neg h1] at h
    by_cases h2 : 6 < route.length
    · rw [if_pos h2] at h; simp at h
    · rw [if_neg h2] at h
      by_cases h0 : minp = 0
      · rw [if_pos h0] at h; simp at h
      · rw [if_neg h0] at h
        cases hR : run_route cpi slip route bal bal with
        | cpiErr b => rw [hR] at h; simp at h
        | swapFailed b => rw [hR] at h; simp at h
        | done c fb =>
          rw [hR] at h
          dsimp only at h
          by_cases hb : bal = 0
          · rw [if_pos hb] at h; simp at h
          · rw [if_neg hb] at h
            by_cases hlt : (fb - bal) * 10000 / bal < minp
            · rw [if_pos hlt] at h; simp at h
            · rw [if_neg hlt] at h
              injection h with h
              subst h
              exact ⟨rfl, c, rfl⟩

/-- The execution record of the successful run on routeJJR. -/
def recJJR : ArbitrageExecuted :=
  { user := 7, start_amount := 100000, final_amount := 400000, profit := 300000,
    profit_bps := 30000, steps := 3 }

/-- Claim C5 witness: the general theorem applied to the concrete
successful execution on routeJJR. -/
theorem C5_witness :
    recJJR.start_amount = 100000 ∧
    ∃ c, run_route cpiDouble 0 routeJJR 100000 100000 =
      StepsOutcome.done c recJJR.final_amount :=
  C5_final_balance_reread.1 7 cpiDouble routeJJR 1 0 100000 recJJR (by decide)

/-- Claim C6: if, after a prefix of succeeding steps, the adapter of
the next step reports success = false, the whole call fails with
SwapFailed whatever steps follow (the trailing steps are universally
quantified and never reached); and for the Jupiter adapter,
success = false holds exactly when the observed output is below the
min_output passed to it. -/
theorem C6_swap_failed_aborts :
    (∀ (user : Nat) (cpi : Cpi) (pre post : List SwapStep) (s : SwapStep)
        (minp slip bal c b : Nat) (res : SwapResult) (b2 : Nat),
        0 < minp →
        3 ≤ (pre ++ s :: post).length → (pre ++ s :: post).length ≤ 6 →
        run_route cpi slip pre bal bal = StepsOutcome.done c b →
        execute_single_swap cpi s c slip b = some (res, b2) →
        res.success = false →
        execute_arbitrage_route user cpi (pre ++ s :: post) minp slip bal =
          ExecOutcome.err ArbitrageError.SwapFailed) ∧
    (∀ (cpi : Cpi) (step : SwapStep) (c m bal : Nat) (res : SwapResult) (nb : Nat),
        execute_jupiter_swap cpi step c m bal = some (res, nb) →
        (res.success = false ↔ nb < m)) := by
  constructor
  · intro user cpi pre post s minp slip bal c b res b2 hm h3 h6 hpre hs hf
    have hroute : run_route cpi slip (pre ++ s :: post) bal bal =
        StepsOutcome.swapFailed b2 := by
      rw [run_route_append cpi slip pre (s :: post) bal bal c b hpre]
      simp [run_route, hs, hf]
    unfold execute_arbitrage_route execute_arbitrage_route_st
    rw [if_neg (by omega), if_neg (by omega), if_neg (by omega), hroute]
  · intro cpi step c m bal res nb h
    unfold execute_jupiter_swap at h
    cases hc : cpi step c m bal with
    | none => rw [hc] at h; simp at h
    | some newBal =>
      rw [hc] at h
      dsimp only at h
      injection h with h
      injection h with h1 h2
      subst h1
      subst h2
      simp [Nat.not_le]

/-- Claim C6 witness: two succeeding Raydium steps followed by a
Jupiter step whose observed output 5 is below its min_output 1000. -/
theorem C6_witness :
    execute_arbitrage_route 7 (cpiConst 5)
      ([mkStep DexType.Raydium 1000, mkStep DexType.Raydium 1000] ++
        mkStep DexType.Jupiter 1000 :: []) 1 0 1000 =
      ExecOutcome.err ArbitrageError.SwapFailed :=
  C6_swap_failed_aborts.1 7 (cpiConst 5)
    [mkStep DexType.Raydium 1000, mkStep DexType.Raydium 1000] []
    (mkStep DexType.Jupiter 1000) 1 0 1000 1000 1000
    { success := false, output_amount := 5, slippage_bps := 9950 } 5
    (by decide) (by decide) (by decide) (by decide) (by decide) rfl

/-- Claim C7: profit is the saturating difference of final and start
balance, so a final balance below the start gives zero profit and,
the gate requiring a positive min_profit_bps, necessarily
InsufficientProfit; on the concrete scenario with start 100000 and
final 101500 the record carries profit 1500 and profit_bps 150,
accepted at min_profit_bps 100 and rejected at 200. -/
theorem C7_profit_formula :
    (∀ (user : Nat) (cpi : Cpi) (route : List SwapStep) (minp slip bal c fb : Nat),
        3 ≤ route.length → route.length ≤ 6 → 0 < minp → bal ≠ 0 →
        run_route cpi slip route bal bal = StepsOutcome.done c fb →
        fb < bal →
        execute_arbitrage_route user cpi route minp slip bal =
          ExecOutcome.err ArbitrageError.InsufficientProfit) ∧
    execute_arbitrage_route 7 cpiPlus1500 routeJRR 100 0 100000 =
      ExecOutcome.ok { user := 7, start_amount := 100000, final_amount := 101500,
                       profit := 1500, profit_bps := 150, steps := 3 } ∧
    execute_arbitrage_route 7 cpiPlus1500 routeJRR 200 0 100000 =
      ExecOutcome.err ArbitrageError.InsufficientProfit := by
  refine ⟨?_, by decide, by decide⟩
  intro user cpi route minp slip bal c fb h3 h6 hm hb hrun hlt
  have hsat : fb - bal = 0 := by omega
  unfold execute_arbitrage_route execute_arbitrage_route_st
  rw [if_neg (by omega), if_neg (by omega), if_neg (by omega), hrun]
  dsimp only
  rw [if_neg hb, if_pos (by simp [hsat]; exact hm)]

/-- Claim C7 witness: the saturating branch applied to a route whose
steps succeed but whose final balance 90000 is below the start
100000. -/
theorem C7_witness :
    execute_arbitrage_route 7 (cpiConst 90000) routeJRR 100 10000 100000 =
      ExecOutcome.err ArbitrageError.InsufficientProfit :=
  C7_profit_formula.1 7 (cpiConst 90000) routeJRR 100 10000 100000 90000 90000
    (by decide) (by decide) (by decide) (by decide) (by decide) (by decide)

/-- Claim C8: under the substrate contract modelled from the spec
(hosted_execute), whenever the program returns an ArbitrageError the
observable balance after the call equals the balance before it; and
concretely, a failing Jupiter step leaves a raw program-side balance
of 50 that the substrate reverts to the original 100. -/
theorem C8_atomic_on_error :
    (∀ (user : Nat) (cpi : Cpi) (route : List SwapStep) (minp slip bal : Nat)
        (e : ArbitrageError),
        (hosted_execute user cpi route minp slip bal).1 = ExecOutcome.err e →
        (hosted_execute user cpi route minp slip bal).2 = bal) ∧
    (execute_arbitrage_route_st 7 (cpiConst 50) routeJRR 1 0 100).2 = 50 ∧
    hosted_execute 7 (cpiConst 50) routeJRR 1 0 100 =
      (ExecOutcome.err ArbitrageError.SwapFailed, 100) := by
  refine ⟨?_, by decide, by decide⟩
  intro user cpi route minp slip bal e h
  unfold hosted_execute at h ⊢
  rcases hE : execute_arbitrage_route_st user cpi route minp slip bal with ⟨o, raw⟩
  cases o <;> simp_all

/-- Claim C8 witness: the rollback equation applied at the concrete
failing execution. -/
theorem C8_witness :
    (hosted_execute 7 (cpiConst 50) routeJRR 1 0 100).2 = 100 :=
  C8_atomic_on_error.1 7 (cpiConst 50) routeJRR 1 0 100
    ArbitrageError.SwapFailed (by decide)

/-- Claim C9: no execution of execute_arbitrage_route, on any route,
bounds, balance or adapter behavior, returns SlippageExceeded; the
variant is declared but unreachable. -/
theorem C9_slippage_exceeded_unreachable (user : Nat) (cpi : Cpi)
    (route : List SwapStep) (minp slip bal : Nat) :
    execute_arbitrage_route user cpi route minp slip bal ≠
      ExecOutcome.err ArbitrageError.SlippageExceeded := by
  unfold execute_arbitrage_route execute_arbitrage_route_st
  by_cases h1 : route.length < 3
  · simp [h1]
  · by_cases h2 : 6 < route.length
    · simp [h1, h2]
    · by_cases h0 : minp = 0
      · simp [h1, h2, h0]
      · rw [if_neg h1, if_neg h2, if_neg h0]
        cases hR : run_route cpi slip route bal bal with
        | cpiErr b => simp
        | swapFailed b => simp
        | done c fb =>
          dsimp only
          by_cases hb : bal = 0
          · simp [hb]
          · by_cases hlt : (fb - bal) * 10000 / bal < minp
            · simp [hb, hlt]
            · simp [hb, hlt]

/-- Claim C10: the Raydium and Orca adapters report success = true
with output input * expected_rate / 1000 and slippage 0 for every
min_output, which they ignore; hence a route made only of Raydium and
Orca steps can never end in SwapFailed. -/
theorem C10_raydium_orca_ignore_min_output :
    (∀ (step : SwapStep) (input m bal : Nat),
        execute_raydium_swap step input m bal =
          some ({ success := true, output_amount := input * step.expected_rate / 1000,
                  slippage_bps := 0 }, bal)) ∧
    (∀ (step : SwapStep) (input m bal : Nat),
        execute_orca_swap step input m bal =
          some ({ success := true, output_amount := input * step.expected_rate / 1000,
                  slippage_bps := 0 }, bal)) ∧
    (∀ (user : Nat) (cpi : Cpi) (route : List SwapStep) (minp slip bal : Nat),
        (∀ s ∈ route, s.dex = DexType.Raydium ∨ s.dex = DexType.Orca) →
        execute_arbitrage_route user cpi route minp slip bal ≠
          ExecOutcome.err ArbitrageError.SwapFailed) := by
  refine ⟨fun step input m bal => rfl, fun step input m bal => rfl, ?_⟩
  intro user cpi route minp slip bal hro
  unfold execute_arbitrage_route execute_arbitrage_route_st
  by_cases h1 : route.length < 3
  · simp [h1]
  · by_cases h2 : 6 < route.length
    · simp [h1, h2]
    · by_cases h0 : minp = 0
      · simp [h1, h2, h0]
      · rw [if_neg h1, if_neg h2, if_neg h0]
        obtain ⟨c, b, hd⟩ := run_route_ray_orca cpi slip route hro bal bal
        rw [hd]
        dsimp only
        by_cases hb : bal = 0
        · simp [hb]
        · by_cases hlt : (b - bal) * 10000 / bal < minp
          · simp [hb, hlt]
          · simp [hb, hlt]

/-- Claim C10 witness: an all-Raydium route never returns SwapFailed. -/
theorem C10_witness :
    execute_arbitrage_route 7 (cpiConst 0) (List.replicate 3 (mkStep DexType.Raydium 1000))
      1 0 5 ≠ ExecOutcome.err ArbitrageError.SwapFailed :=
  C10_raydium_orca_ignore_min_output.2.2 7 (cpiConst 0)
    (List.replicate 3 (mkStep DexType.Raydium 1000)) 1 0 5 (by decide)

end GraphArbitrage
